import Mathlib

/-!
Verification of the stage pipeline controller of the gmx-vmd workflow system.

This file is a shallow embedding, in Lean 4, of the parts of the repository
that the specified properties are about:

* `src/mcp_gmx_vmd/models.py` — the `SimulationStep` enumeration and the
  `SimulationStatus` record (mutable Python lists / dicts become Lean lists
  and association lists);
* `src/mcp_gmx_vmd/gromacs.py` — `run_gromacs_command`, the process
  invocation gateway.  Actual process spawning is abstracted by a `spawn`
  oracle that either completes with (stdout, stderr, returncode) or raises;
* `src/mcp_gmx_vmd/simulation.py` — the `SimulationWorkflow` phase-running
  methods (`run_minimization`, `run_nvt_equilibration`,
  `run_npt_equilibration`, `run_production`), the progress monitor
  `_monitor_progress`, the output validator `_check_output_files`, and the
  checkpoint store `backup_checkpoint` / `restore_checkpoint`.

The filesystem visible to the checkpoint store is modelled as association
lists from file names to file contents (byte lists); the external engine's
behaviour during a phase run is modelled by a `PhaseEnv` record of oracles
(grompp return code, the sequence of log snapshots seen by the monitor,
the sizes of the output files).  `_validate_energy` needs no oracle: it
always returns `False`, because it passes `None` as the context to
`run_gromacs_command`, which reads `ctx.gmx_path` before entering its
`try` block.
-/

namespace GmxVmd

/-! ## Association lists, modelling Python dict lookup and assignment -/

/-- Lookup in an association list (`d[k]` read access / `k in d`). -/
def alookup {α β : Type} [DecidableEq α] : List (α × β) → α → Option β
  | [], _ => none
  | (k, v) :: rest, key => if k = key then some v else alookup rest key

/-- Update / insert in an association list (`d[k] = v`). -/
def aset {α β : Type} [DecidableEq α] : List (α × β) → α → β → List (α × β)
  | [], key, val => [(key, val)]
  | (k, v) :: rest, key, val =>
    if k = key then (key, val) :: rest else (k, v) :: aset rest key val

/-! ## Data model (`models.py`) -/

/-- The `SimulationStep` enumeration of `models.py`. -/
inductive SimulationStep where
  | system_preparation
  | minimization
  | nvt_equilibration
  | npt_equilibration
  | production
  | analysis
deriving DecidableEq, Repr

/-- The `.value` string of a `SimulationStep` member. -/
def SimulationStep.value : SimulationStep → String
  | .system_preparation => "system_preparation"
  | .minimization => "minimization"
  | .nvt_equilibration => "nvt_equilibration"
  | .npt_equilibration => "npt_equilibration"
  | .production => "production"
  | .analysis => "analysis"

/-- The `SimulationStatus` model of `models.py` (the timestamp fields play no
role in any property and are omitted; `errors` is a Python dict, modelled as
an association list). -/
structure SimulationStatus where
  current_step : Option SimulationStep := none
  completed_steps : List SimulationStep := []
  errors : List (SimulationStep × String) := []
deriving DecidableEq, Repr

/-! ## Process invocation gateway (`gromacs.py`) -/

/-- The part of the `Context` object of `gromacs.py` that decides command
construction. -/
structure Context where
  gmx_path : String := "gmx"
deriving DecidableEq, Repr

/-- The `GromacsCmdResult` model of `gromacs.py`. -/
structure GromacsCmdResult where
  stdout : String
  stderr : String
  return_code : Int
  command : String
  success : Bool
deriving DecidableEq, Repr

/-- Outcome of attempting to spawn the subprocess: either the process ran to
completion with captured streams and a return code, or spawning raised an
exception with the given message. -/
inductive SpawnOutcome where
  | completed (stdout stderr : String) (returncode : Int)
  | raised (msg : String)
deriving DecidableEq, Repr

/-- The command list built by `run_gromacs_command` (gromacs.py lines 41–48):
`[gmx_path, cmd] + args` when the configured path equals the literal `"gmx"`,
and the bare `[cmd] + args` otherwise. -/
def gromacs_full_cmd (ctx : Context) (cmd : String) (args : List String) : List String :=
  if ctx.gmx_path = "gmx" then ctx.gmx_path :: cmd :: args else cmd :: args

/-- `run_gromacs_command` of `gromacs.py`.  The subprocess machinery is
abstracted by the `spawn` oracle, applied to the constructed command list.
The `try` block covers spawning and stream capture; on an exception the
function returns the sentinel result with `return_code = -1` and the cause
in `stderr` (lines 101–110). -/
def run_gromacs_command (ctx : Context) (cmd : String) (args : List String)
    (spawn : List String → SpawnOutcome) : GromacsCmdResult :=
  let full_cmd := gromacs_full_cmd ctx cmd args
  match spawn full_cmd with
  | .completed out err rc =>
    { stdout := out, stderr := err, return_code := rc,
      command := String.intercalate " " full_cmd, success := rc = 0 }
  | .raised msg =>
    { stdout := "", stderr := msg, return_code := -1,
      command := String.intercalate " " full_cmd, success := false }

/-! ## Checkpoint store (`simulation.py` lines 338–396)

`backup_checkpoint` and `restore_checkpoint` touch exactly one directory,
`checkpoints/<step.value>/`, and the working directory.  The filesystem
state relevant to one call is therefore a pair: the working directory's
files and the (possibly absent) checkpoint directory for the given step. -/

/-- File contents as a byte list. -/
abbrev FileContent := List Nat

/-- Filesystem state visible to one checkpoint operation: the files of the
working directory and the contents of `checkpoints/<step>/` (`none` when
that directory does not exist). -/
structure StepFS where
  workdir : List (String × FileContent)
  ckptdir : Option (List (String × FileContent))
deriving DecidableEq, Repr

/-- The `files_to_backup` dict of `backup_checkpoint` (simulation.py lines
345–350); `dict.get(step, [])` yields `[]` for steps with no entry. -/
def files_to_backup : SimulationStep → List String
  | .minimization => ["em.gro", "em.edr", "em.log"]
  | .nvt_equilibration => ["nvt.gro", "nvt.edr", "nvt.log", "nvt.cpt"]
  | .npt_equilibration => ["npt.gro", "npt.edr", "npt.log", "npt.cpt"]
  | .production => ["md.gro", "md.edr", "md.log", "md.xtc", "md.cpt"]
  | _ => []

/-- The `files_to_restore` dict of `restore_checkpoint` (simulation.py lines
374–379); identical content to `files_to_backup`. -/
def files_to_restore : SimulationStep → List String
  | .minimization => ["em.gro", "em.edr", "em.log"]
  | .nvt_equilibration => ["nvt.gro", "nvt.edr", "nvt.log", "nvt.cpt"]
  | .npt_equilibration => ["npt.gro", "npt.edr", "npt.log", "npt.cpt"]
  | .production => ["md.gro", "md.edr", "md.log", "md.xtc", "md.cpt"]
  | _ => []

/-- The copy loop of `backup_checkpoint`: for each file of the step's list
that exists in the working directory, copy it into the checkpoint
directory (files absent from the working directory are silently skipped). -/
def backupFold (wd : List (String × FileContent)) (d : List (String × FileContent)) :
    List String → List (String × FileContent)
  | [] => d
  | file :: rest =>
    match alookup wd file with
    | some c => backupFold wd (aset d file c) rest
    | none => backupFold wd d rest

/-- `backup_checkpoint` of `simulation.py` (lines 338–363):
`checkpoint_dir.mkdir(parents=True, exist_ok=True)` creates the directory
if absent, then each existing file of the step's list is copied in.  The
function has no failure return value; in this model (filesystem operations
total) it always succeeds. -/
def backup_checkpoint (step : SimulationStep) (fs : StepFS) : StepFS :=
  let d0 := fs.ckptdir.getD []
  { fs with ckptdir := some (backupFold fs.workdir d0 (files_to_backup step)) }

/-- The copy loop of `restore_checkpoint`: walk the step's file list; copy
each file found in the checkpoint directory into the working directory, and
return `False` at the first missing file — files already copied stay
copied. -/
def restoreLoop (d : List (String × FileContent)) :
    List String → List (String × FileContent) → Bool × List (String × FileContent)
  | [], wd => (true, wd)
  | file :: rest, wd =>
    match alookup d file with
    | some c => restoreLoop d rest (aset wd file c)
    | none => (false, wd)

/-- `restore_checkpoint` of `simulation.py` (lines 365–396): returns `False`
if the checkpoint directory does not exist, else runs the copy loop and
returns its verdict together with the resulting working directory. -/
def restore_checkpoint (step : SimulationStep) (fs : StepFS) : Bool × StepFS :=
  match fs.ckptdir with
  | none => (false, fs)
  | some d =>
    let r := restoreLoop d (files_to_restore step) fs.workdir
    (r.1, { fs with workdir := r.2 })

/-! ## Progress monitor (`simulation.py` lines 76–100) -/

/-- Whether the character list `p` occurs at the start of `l`. -/
def strStartsWith : List Char → List Char → Bool
  | _, [] => true
  | [], _ :: _ => false
  | a :: l, b :: p => a = b && strStartsWith l p

/-- Whether the character list `p` occurs somewhere inside `l`. -/
def strHasSub : List Char → List Char → Bool
  | [], p => strStartsWith [] p
  | a :: rest, p => strStartsWith (a :: rest) p || strHasSub rest p

/-- Python's substring test `sub in s`, on the characters of the strings. -/
def strContains (s sub : String) : Bool :=
  strHasSub s.toList sub.toList

/-- What one poll of the log file yields. -/
inductive MonitorSignal where
  | done
  | failed (line : String)
  | pending
deriving DecidableEq, Repr

/-- One iteration of the `_monitor_progress` loop over the lines currently
in the log file: the completion marker `"Finished mdrun"` is checked on the
last line first; only otherwise is the fatal marker `"Fatal error"`
checked; an empty file (or no decisive marker) leaves the loop polling. -/
def monitorPoll (lines : List String) : MonitorSignal :=
  match lines.getLast? with
  | none => .pending
  | some last_line =>
    if strContains last_line "Finished mdrun" then .done
    else if strContains last_line "Fatal error" then .failed last_line
    else .pending

/-- One observation of the log file: `none` when the file does not yet
exist (the loop sleeps and continues), `some lines` when it holds
`lines`. -/
def monitorObserve : Option (List String) → MonitorSignal
  | none => .pending
  | some lines => monitorPoll lines

/-- Overall result of `_monitor_progress` on a sequence of observations. -/
inductive MonitorResult where
  | finished
  | fatal
  | hang
deriving DecidableEq, Repr

/-- `_monitor_progress` over the sequence of snapshots of the log file seen
at successive polls: the first decisive snapshot determines the outcome
(`break` on the completion marker, `raise SimulationError` on the fatal
marker); if no snapshot is ever decisive the loop never returns. -/
def monitorOutcome : List (Option (List String)) → MonitorResult
  | [] => .hang
  | obs :: rest =>
    match monitorObserve obs with
    | .done => .finished
    | .failed _ => .fatal
    | .pending => monitorOutcome rest

/-! ## Stage pipeline controller (`simulation.py` lines 102–333)

The four phase-running methods `run_minimization`, `run_nvt_equilibration`,
`run_npt_equilibration` and `run_production` share one structure; they
differ only in the phase, the predecessor check (absent for minimization),
the grompp arguments, the `-deffnm` name, the required output files and the
energy file.  `run_phase` embeds that shared structure; each method is its
instantiation at a `PhaseSpec` transcribing its literals.

External behaviour during one attempt is an oracle record `PhaseEnv`; the
externally visible side effects of the attempt (gateway invocations,
registry updates, checkpoint backups) are collected in an `Effect` list. -/

/-- Behaviour of the external world during one phase attempt. -/
structure PhaseEnv where
  grompp_return_code : Int
  grompp_stderr : String
  polls : List (Option (List String))
  file_size : List (String × Nat)
deriving DecidableEq, Repr

/-- An externally visible side effect of a phase attempt. -/
inductive Effect where
  | gateway (cmd : String) (args : List String)
  | registry_update
  | backup (step : SimulationStep)
deriving DecidableEq, Repr

/-- `true` iff the effect is a gateway (subprocess) invocation. -/
def Effect.isGateway : Effect → Bool
  | .gateway _ _ => true
  | _ => false

/-- Result of one phase attempt: the status after the attempt, the effects
performed, and whether the method returned normally (`true`) or raised
(`false`). -/
structure RunResult where
  status : SimulationStatus
  effects : List Effect
  ok : Bool
deriving DecidableEq, Repr

/-- `_check_output_files` of `simulation.py` (lines 45–55): `false` as soon
as a required file is missing or has size zero, else `true`. -/
def check_output_files (file_size : List (String × Nat)) : List String → Bool
  | [] => true
  | file :: rest =>
    match alookup file_size file with
    | none => false
    | some n => if n = 0 then false else check_output_files file_size rest

/-- The `except` clauses of the phase methods: record the message against
the step in `status.errors` (simulation.py line 152 and analogues). -/
def record_error (status : SimulationStatus) (step : SimulationStep) (msg : String) :
    SimulationStatus :=
  { status with errors := aset status.errors step msg }

/-- The literals distinguishing one phase method from another. -/
structure PhaseSpec where
  step : SimulationStep
  predecessor : Option SimulationStep
  predecessor_error : String
  grompp_args : List String
  deffnm : String
  required_files : List String
  energy_file : String

/-- The grompp invocation of a phase method, as an effect. -/
def grompp_effect (spec : PhaseSpec) : Effect :=
  Effect.gateway "grompp" spec.grompp_args

/-- The mdrun invocation of a phase method, as an effect. -/
def mdrun_effect (spec : PhaseSpec) : Effect :=
  Effect.gateway "mdrun" ["-v", "-deffnm", spec.deffnm]

/-- `_validate_energy` of `simulation.py` (lines 57–74).  The method invokes
`run_gromacs_command(None, "energy", ["-f", energy_file, "-o", ...])`;
`run_gromacs_command` reads `ctx.gmx_path` (gromacs.py line 41) BEFORE
entering its `try` block, so the `None` context raises `AttributeError`
before any process is spawned; `_validate_energy` catches every exception
and returns `False` (its non-exception path would also return `False` on a
non-zero exit).  It therefore returns `False` on every call and spawns no
process. -/
def validate_energy (_step : SimulationStep) (_energy_file : String) : Bool :=
  false

/-- The body shared by the four phase methods after the predecessor check:
grompp via the gateway (non-zero exit raises), mdrun via the gateway (its
return code is never inspected), `_monitor_progress`, `_check_output_files`,
`_validate_energy` — which always returns `False`, so the raise on its
result is always taken and the final append of the step to
`completed_steps` is dead code.  Every raise is caught by the method's
`except` clause, which records the message and re-raises (`ok = false`).
`none` models the monitor polling forever. -/
def run_phase_body (spec : PhaseSpec) (env : PhaseEnv) (status : SimulationStatus) :
    Option RunResult :=
  if env.grompp_return_code ≠ 0 then
    some ⟨record_error status spec.step ("生成TPR文件失败: " ++ env.grompp_stderr),
          [grompp_effect spec], false⟩
  else
    match monitorOutcome env.polls with
    | .hang => none
    | .fatal =>
      some ⟨record_error status spec.step (spec.step.value ++ " 模拟失败"),
            [grompp_effect spec, mdrun_effect spec], false⟩
    | .finished =>
      if check_output_files env.file_size spec.required_files = false then
        some ⟨record_error status spec.step (spec.step.value ++ " 输出文件验证失败"),
              [grompp_effect spec, mdrun_effect spec], false⟩
      else if validate_energy spec.step spec.energy_file = false then
        some ⟨record_error status spec.step (spec.step.value ++ " 能量验证失败"),
              [grompp_effect spec, mdrun_effect spec], false⟩
      else
        some ⟨{ status with completed_steps := status.completed_steps ++ [spec.step] },
              [grompp_effect spec, mdrun_effect spec], true⟩

/-- One phase method: set `current_step`, then (except for minimization,
whose spec has no predecessor) raise unless the predecessor is in
`completed_steps` — the raise is caught and recorded with no gateway call —
then run the shared body. -/
def run_phase (spec : PhaseSpec) (env : PhaseEnv) (status : SimulationStatus) :
    Option RunResult :=
  match spec.predecessor with
  | some pred =>
    if pred ∈ status.completed_steps then
      run_phase_body spec env { status with current_step := some spec.step }
    else
      some ⟨record_error { status with current_step := some spec.step } spec.step
              spec.predecessor_error, [], false⟩
  | none => run_phase_body spec env { status with current_step := some spec.step }

/-- Literals of `run_minimization` (simulation.py lines 102–154).  Note
the source performs no predecessor check in this method. -/
def minimization_spec : PhaseSpec :=
  { step := .minimization
    predecessor := none
    predecessor_error := ""
    grompp_args := ["-f", "em.mdp", "-c", "solvated.gro", "-p", "topol.top", "-o", "em.tpr"]
    deffnm := "em"
    required_files := ["em.gro", "em.edr", "em.log"]
    energy_file := "em.edr" }

/-- Literals of `run_nvt_equilibration` (simulation.py lines 156–213). -/
def nvt_spec : PhaseSpec :=
  { step := .nvt_equilibration
    predecessor := some .minimization
    predecessor_error := "必须先完成能量最小化"
    grompp_args := ["-f", "nvt.mdp", "-c", "em.gro", "-r", "em.gro", "-p", "topol.top",
                    "-o", "nvt.tpr"]
    deffnm := "nvt"
    required_files := ["nvt.gro", "nvt.edr", "nvt.log", "nvt.cpt"]
    energy_file := "nvt.edr" }

/-- Literals of `run_npt_equilibration` (simulation.py lines 215–273). -/
def npt_spec : PhaseSpec :=
  { step := .npt_equilibration
    predecessor := some .nvt_equilibration
    predecessor_error := "必须先完成NVT平衡"
    grompp_args := ["-f", "npt.mdp", "-c", "nvt.gro", "-r", "nvt.gro", "-t", "nvt.cpt",
                    "-p", "topol.top", "-o", "npt.tpr"]
    deffnm := "npt"
    required_files := ["npt.gro", "npt.edr", "npt.log", "npt.cpt"]
    energy_file := "npt.edr" }

/-- Literals of `run_production` (simulation.py lines 275–333). -/
def production_spec : PhaseSpec :=
  { step := .production
    predecessor := some .npt_equilibration
    predecessor_error := "必须先完成NPT平衡"
    grompp_args := ["-f", "md.mdp", "-c", "npt.gro", "-t", "npt.cpt", "-p", "topol.top",
                    "-o", "md.tpr"]
    deffnm := "md"
    required_files := ["md.gro", "md.edr", "md.log", "md.xtc", "md.cpt"]
    energy_file := "md.edr" }

/-- `run_minimization` of `simulation.py`. -/
def run_minimization (env : PhaseEnv) (status : SimulationStatus) : Option RunResult :=
  run_phase minimization_spec env status

/-- `run_nvt_equilibration` of `simulation.py`. -/
def run_nvt_equilibration (env : PhaseEnv) (status : SimulationStatus) : Option RunResult :=
  run_phase nvt_spec env status

/-- `run_npt_equilibration` of `simulation.py`. -/
def run_npt_equilibration (env : PhaseEnv) (status : SimulationStatus) : Option RunResult :=
  run_phase npt_spec env status

/-- `run_production` of `simulation.py`. -/
def run_production (env : PhaseEnv) (status : SimulationStatus) : Option RunResult :=
  run_phase production_spec env status

/-! ## Concrete environments and states used by the claim theorems -/

/-- A benign environment for a minimization attempt: grompp exits 0, the
log's last line shows the completion marker, all required output files are
present and non-empty.  Even so, the attempt fails at energy validation,
which always returns `False`. -/
def good_env : PhaseEnv :=
  { grompp_return_code := 0
    grompp_stderr := ""
    polls := [some ["Finished mdrun on node 0"]]
    file_size := [("em.gro", 5), ("em.edr", 5), ("em.log", 5)] }

/-- The result of the minimization attempt of `good_env`: every earlier
step passes, then energy validation fails, the error is recorded, and the
phase is not committed. -/
def energy_fail_run : RunResult :=
  { status := { current_step := some .minimization
                completed_steps := []
                errors := [(.minimization, "minimization 能量验证失败")] }
    effects := [.gateway "grompp"
                  ["-f", "em.mdp", "-c", "solvated.gro", "-p", "topol.top", "-o", "em.tpr"],
                .gateway "mdrun" ["-v", "-deffnm", "em"]]
    ok := false }

/-- The statuses reachable from a fresh `SimulationStatus()` (the state a
`SimulationWorkflow` starts with) through returned attempts of the four
phase-running methods — the only code that mutates the status. -/
inductive Reachable : SimulationStatus → Prop where
  | init : Reachable {}
  | step (st : SimulationStatus) (spec : PhaseSpec) (env : PhaseEnv) (r : RunResult) :
      Reachable st →
      spec ∈ [minimization_spec, nvt_spec, npt_spec, production_spec] →
      run_phase spec env st = some r →
      Reachable r.status

/-- An environment whose single log snapshot ends in a line containing BOTH
the fatal marker and the completion marker, with all output files fine. -/
def both_markers_env : PhaseEnv :=
  { grompp_return_code := 0
    grompp_stderr := ""
    polls := [some ["step 42: Fatal error handled, then Finished mdrun"]]
    file_size := [("em.gro", 5), ("em.edr", 5), ("em.log", 5)] }

/-- An environment whose log's last line carries only the fatal marker. -/
def fatal_env : PhaseEnv :=
  { grompp_return_code := 0
    grompp_stderr := ""
    polls := [some ["Fatal error: cannot open input file"]]
    file_size := [("em.gro", 5), ("em.edr", 5), ("em.log", 5)] }

/-- An environment in which the run looks fine but `em.edr` is empty. -/
def empty_output_env : PhaseEnv :=
  { grompp_return_code := 0
    grompp_stderr := ""
    polls := [some ["Finished mdrun on node 0"]]
    file_size := [("em.gro", 5), ("em.edr", 0), ("em.log", 5)] }

/-- A working directory holding all minimization outputs. -/
def full_workdir_fs : StepFS :=
  { workdir := [("em.gro", [1, 2]), ("em.edr", [3]), ("em.log", [4, 5, 6])]
    ckptdir := none }

/-! ## Association-list lemmas -/

theorem alookup_aset_self {α β : Type} [DecidableEq α]
    (m : List (α × β)) (k : α) (v : β) : alookup (aset m k v) k = some v := by
  induction m with
  | nil => simp [aset, alookup]
  | cons kv rest ih =>
    obtain ⟨k', v'⟩ := kv
    by_cases h : k' = k <;> simp [aset, alookup, h, ih]

theorem alookup_aset_ne {α β : Type} [DecidableEq α]
    (m : List (α × β)) (k k' : α) (v : β) (hne : k ≠ k') :
    alookup (aset m k v) k' = alookup m k' := by
  induction m with
  | nil => simp [aset, alookup, hne]
  | cons kv rest ih =>
    obtain ⟨a, b⟩ := kv
    by_cases h : a = k
    · subst h
      simp [aset, alookup, hne]
    · simp [aset, alookup, h, ih]

theorem aset_eq_self_of_alookup {α β : Type} [DecidableEq α]
    (m : List (α × β)) (k : α) (v : β) (h : alookup m k = some v) :
    aset m k v = m := by
  induction m with
  | nil => simp [alookup] at h
  | cons kv rest ih =>
    obtain ⟨a, b⟩ := kv
    by_cases hak : a = k
    · subst hak
      simp [alookup] at h
      simp [aset, h]
    · simp [alookup, hak] at h
      simp [aset, hak, ih h]

/-! ## Shared lemmas about one phase attempt -/

/-- A returned attempt of the shared body either committed — `completed_steps`
gains exactly the step at its end and `errors` is untouched — or failed with
a message recorded against the step and `completed_steps` untouched. -/
theorem run_phase_body_cases (spec : PhaseSpec) (env : PhaseEnv) (status : SimulationStatus)
    (r : RunResult) (h : run_phase_body spec env status = some r) :
    (r.ok = true ∧
      r.status = { status with completed_steps := status.completed_steps ++ [spec.step] }) ∨
    (r.ok = false ∧ ∃ msg, r.status = record_error status spec.step msg) := by
  unfold run_phase_body at h
  split at h
  · injection h with h; subst h; exact Or.inr ⟨rfl, _, rfl⟩
  · split at h
    · cases h
    · injection h with h; subst h; exact Or.inr ⟨rfl, _, rfl⟩
    · split at h
      · injection h with h; subst h; exact Or.inr ⟨rfl, _, rfl⟩
      · split at h
        · injection h with h; subst h; exact Or.inr ⟨rfl, _, rfl⟩
        · injection h with h; subst h; exact Or.inl ⟨rfl, rfl⟩

/-- Every effect of the shared body is a gateway invocation: the body never
updates the registry and never creates a checkpoint. -/
theorem run_phase_body_effects (spec : PhaseSpec) (env : PhaseEnv) (status : SimulationStatus)
    (r : RunResult) (h : run_phase_body spec env status = some r) :
    ∀ e ∈ r.effects, e.isGateway = true := by
  unfold run_phase_body at h
  split at h
  · injection h with h; subst h
    simp [grompp_effect, Effect.isGateway]
  · split at h
    · cases h
    · injection h with h; subst h
      simp [grompp_effect, mdrun_effect, Effect.isGateway]
    · split at h
      · injection h with h; subst h
        simp [grompp_effect, mdrun_effect, Effect.isGateway]
      · split at h
        · injection h with h; subst h
          simp [grompp_effect, mdrun_effect, Effect.isGateway]
        · injection h with h; subst h
          simp [grompp_effect, mdrun_effect, Effect.isGateway]

/-- Whenever the shared body returns, the grompp gateway invocation is among
its effects. -/
theorem run_phase_body_grompp (spec : PhaseSpec) (env : PhaseEnv) (status : SimulationStatus)
    (r : RunResult) (h : run_phase_body spec env status = some r) :
    grompp_effect spec ∈ r.effects := by
  unfold run_phase_body at h
  split at h
  · injection h with h; subst h; simp
  · split at h
    · cases h
    · injection h with h; subst h; simp
    · split at h
      · injection h with h; subst h; simp
      · split at h
        · injection h with h; subst h; simp
        · injection h with h; subst h; simp

/-- Case analysis of a whole phase attempt. -/
theorem run_phase_cases (spec : PhaseSpec) (env : PhaseEnv) (status : SimulationStatus)
    (r : RunResult) (h : run_phase spec env status = some r) :
    (r.ok = true ∧
      r.status.completed_steps = status.completed_steps ++ [spec.step] ∧
      r.status.errors = status.errors) ∨
    (r.ok = false ∧
      r.status.completed_steps = status.completed_steps ∧
      ∃ msg, r.status.errors = aset status.errors spec.step msg) := by
  unfold run_phase at h
  have body :
      run_phase_body spec env { status with current_step := some spec.step } = some r →
      (r.ok = true ∧
        r.status.completed_steps = status.completed_steps ++ [spec.step] ∧
        r.status.errors = status.errors) ∨
      (r.ok = false ∧
        r.status.completed_steps = status.completed_steps ∧
        ∃ msg, r.status.errors = aset status.errors spec.step msg) := by
    intro hb
    rcases run_phase_body_cases spec env _ r hb with ⟨hok, hs⟩ | ⟨hok, msg, hs⟩
    · exact Or.inl ⟨hok, by rw [hs], by rw [hs]⟩
    · exact Or.inr ⟨hok, by rw [hs]; rfl, msg, by rw [hs]; rfl⟩
  split at h
  · split at h
    · exact body h
    · injection h with h; subst h
      exact Or.inr ⟨rfl, rfl, _, rfl⟩
  · exact body h

/-- Every effect of a whole phase attempt is a gateway invocation. -/
theorem run_phase_effects (spec : PhaseSpec) (env : PhaseEnv) (status : SimulationStatus)
    (r : RunResult) (h : run_phase spec env status = some r) :
    ∀ e ∈ r.effects, e.isGateway = true := by
  unfold run_phase at h
  split at h
  · split at h
    · exact run_phase_body_effects spec env _ r h
    · injection h with h; subst h; simp
  · exact run_phase_body_effects spec env _ r h

/-! ## Claim C5 -/

/-- Claim C5: for every invocation where the external binary cannot be
spawned at all (the spawn raises, for any cause), `run_gromacs_command`
returns a `GromacsCmdResult` with `success = false`, `return_code = -1`
and the cause in `stderr`, and never propagates an exception to the
caller — invocation failures are always returned as data. -/
theorem C5_spawn_failure_is_data (ctx : Context) (cmd : String) (args : List String)
    (spawn : List String → SpawnOutcome) (msg : String)
    (h : spawn (gromacs_full_cmd ctx cmd args) = .raised msg) :
    run_gromacs_command ctx cmd args spawn =
      { stdout := "", stderr := msg, return_code := -1,
        command := String.intercalate " " (gromacs_full_cmd ctx cmd args),
        success := false } := by
  unfold run_gromacs_command
  simp only []
  rw [h]

/-- Witness for C5: a missing `gmx` executable. -/
theorem C5_spawn_failure_is_data_witness :
    run_gromacs_command { gmx_path := "gmx" } "grompp" ["-f", "em.mdp"]
        (fun _ => .raised "FileNotFoundError: gmx") =
      { stdout := "", stderr := "FileNotFoundError: gmx", return_code := -1,
        command := String.intercalate " "
          (gromacs_full_cmd { gmx_path := "gmx" } "grompp" ["-f", "em.mdp"]),
        success := false } :=
  C5_spawn_failure_is_data { gmx_path := "gmx" } "grompp" ["-f", "em.mdp"]
    (fun _ => .raised "FileNotFoundError: gmx") "FileNotFoundError: gmx" rfl

/-! ## Claim C9 -/

/-- Claim C9: the command line built by `run_gromacs_command` depends on
string equality of the configured gmx path with the literal `"gmx"`: only
when `ctx.gmx_path = "gmx"` is the command `[gmx_path, cmd] ++ args`; for
any other configured path the configured path is ignored entirely and the
bare `[cmd] ++ args` is executed instead. -/
theorem C9_gmx_path_literal_comparison (ctx : Context) (cmd : String) (args : List String) :
    (ctx.gmx_path = "gmx" → gromacs_full_cmd ctx cmd args = ctx.gmx_path :: cmd :: args) ∧
    (ctx.gmx_path ≠ "gmx" → gromacs_full_cmd ctx cmd args = cmd :: args) := by
  constructor <;> intro h <;> simp [gromacs_full_cmd, h]

/-- Witness for C9: an absolute path to the gmx binary is dropped from the
executed command. -/
theorem C9_gmx_path_literal_comparison_witness :
    gromacs_full_cmd { gmx_path := "/usr/local/gromacs/bin/gmx" } "mdrun" ["-v"] =
      ["mdrun", "-v"] :=
  (C9_gmx_path_literal_comparison { gmx_path := "/usr/local/gromacs/bin/gmx" } "mdrun"
    ["-v"]).2 (by decide)

/-! ## Claim C1 -/

/-- When a phase method's predecessor check fails, the raise is caught and
recorded, and the method performs no effect at all. -/
theorem run_phase_pred_not_completed (spec : PhaseSpec) (pred : SimulationStep)
    (env : PhaseEnv) (status : SimulationStatus)
    (hp : spec.predecessor = some pred) (h : pred ∉ status.completed_steps) :
    run_phase spec env status =
      some ⟨record_error { status with current_step := some spec.step } spec.step
              spec.predecessor_error, [], false⟩ := by
  unfold run_phase
  rw [hp]
  dsimp only
  rw [if_neg h]

/-- Counterexample to C1: invoking `run_minimization` while its predecessor
`system_preparation` is not in `completed_steps` does NOT yield an ordering
error, and the Gateway IS called: grompp and mdrun are spawned, and the
error the attempt eventually records is the energy-validation failure, not
an ordering error. -/
theorem C1_counterexample :
    SimulationStep.system_preparation ∉ ({} : SimulationStatus).completed_steps ∧
    run_minimization good_env {} = some energy_fail_run ∧
    energy_fail_run.effects ≠ [] ∧
    Effect.gateway "grompp"
        ["-f", "em.mdp", "-c", "solvated.gro", "-p", "topol.top", "-o", "em.tpr"]
      ∈ energy_fail_run.effects ∧
    alookup energy_fail_run.status.errors .minimization =
      some "minimization 能量验证失败" := by
  exact ⟨by decide, by decide, by decide, by decide, by decide⟩

/-- Claim C1 as amended: for the three phases `nvt_equilibration`,
`npt_equilibration` and `production`, invoking the run operation while the
predecessor is not in `completed_steps` records the ordering error for the
phase and the Gateway is never called; `run_minimization` performs no
predecessor check — whenever it returns, it has invoked the grompp gateway
call, regardless of whether `system_preparation` was completed. -/
theorem C1_ordering_guard (env : PhaseEnv) (status : SimulationStatus) :
    (SimulationStep.minimization ∉ status.completed_steps →
      ∃ r, run_nvt_equilibration env status = some r ∧ r.effects = [] ∧ r.ok = false ∧
        alookup r.status.errors .nvt_equilibration = some "必须先完成能量最小化") ∧
    (SimulationStep.nvt_equilibration ∉ status.completed_steps →
      ∃ r, run_npt_equilibration env status = some r ∧ r.effects = [] ∧ r.ok = false ∧
        alookup r.status.errors .npt_equilibration = some "必须先完成NVT平衡") ∧
    (SimulationStep.npt_equilibration ∉ status.completed_steps →
      ∃ r, run_production env status = some r ∧ r.effects = [] ∧ r.ok = false ∧
        alookup r.status.errors .production = some "必须先完成NPT平衡") ∧
    (∀ r, run_minimization env status = some r → grompp_effect minimization_spec ∈ r.effects) := by
  refine ⟨?_, ?_, ?_, ?_⟩
  · intro h
    exact ⟨_, run_phase_pred_not_completed nvt_spec .minimization env status rfl h,
      rfl, rfl, alookup_aset_self _ _ _⟩
  · intro h
    exact ⟨_, run_phase_pred_not_completed npt_spec .nvt_equilibration env status rfl h,
      rfl, rfl, alookup_aset_self _ _ _⟩
  · intro h
    exact ⟨_, run_phase_pred_not_completed production_spec .npt_equilibration env status rfl h,
      rfl, rfl, alookup_aset_self _ _ _⟩
  · intro r h
    unfold run_minimization run_phase at h
    exact run_phase_body_grompp _ env _ r h

/-- Witness for C1: with nothing completed, `run_nvt_equilibration` records
the ordering error and performs no gateway call. -/
theorem C1_ordering_guard_witness :
    ∃ r, run_nvt_equilibration good_env {} = some r ∧ r.effects = [] ∧ r.ok = false ∧
      alookup r.status.errors .nvt_equilibration = some "必须先完成能量最小化" :=
  (C1_ordering_guard good_env {}).1 (by decide)

/-! ## Claim C3 -/

/-- A list of gateway-only effects contains no backup and no registry
update. -/
theorem effects_only_gateway {l : List Effect} (h : ∀ e ∈ l, e.isGateway = true) :
    (∀ s, Effect.backup s ∉ l) ∧ Effect.registry_update ∉ l := by
  constructor
  · intro s hs
    have hg := h _ hs
    simp [Effect.isGateway] at hg
  · intro hs
    have hg := h _ hs
    simp [Effect.isGateway] at hg

/-- The shared body never returns a committing attempt: the branch that
appends the step runs only when `validate_energy` yields `true`, and
`validate_energy` is always `false`. -/
theorem run_phase_body_never_ok (spec : PhaseSpec) (env : PhaseEnv)
    (status : SimulationStatus) (r : RunResult)
    (h : run_phase_body spec env status = some r) : r.ok = false := by
  unfold run_phase_body at h
  split at h
  · injection h with h; subst h; rfl
  · split at h
    · cases h
    · injection h with h; subst h; rfl
    · split at h
      · injection h with h; subst h; rfl
      · split at h
        · injection h with h; subst h; rfl
        · next hv => exact absurd rfl hv

/-- No phase attempt ever returns successfully: the
`completed_steps.append` in every run method is dead code. -/
theorem run_phase_never_ok (spec : PhaseSpec) (env : PhaseEnv)
    (status : SimulationStatus) (r : RunResult)
    (h : run_phase spec env status = some r) : r.ok = false := by
  unfold run_phase at h
  split at h
  · split at h
    · exact run_phase_body_never_ok _ _ _ _ h
    · injection h with h; subst h; rfl
  · exact run_phase_body_never_ok _ _ _ _ h

/-- Claim C3 (code bug): the claim describes the commit on successful
completion of a phase, but success is unreachable in this program:
`_validate_energy` always returns `False` — it passes `None` as the context
to `run_gromacs_command`, which reads `ctx.gmx_path` before its `try` — so
every attempt that gets that far raises the energy-validation error, and
the commit append (simulation.py line 142 and analogues) is dead code.
Even that dead code would only append: no Registry persistence and no
`backup` invocation exists in any run method.  Evaluated at a fully benign
environment, the minimization attempt fails with the energy message; in
general every returned attempt of every phase has `ok = false`. -/
theorem C3_success_unreachable :
    run_minimization good_env {} = some energy_fail_run ∧
    (∀ env status r, run_minimization env status = some r → r.ok = false) ∧
    (∀ env status r, run_nvt_equilibration env status = some r → r.ok = false) ∧
    (∀ env status r, run_npt_equilibration env status = some r → r.ok = false) ∧
    (∀ env status r, run_production env status = some r → r.ok = false) :=
  ⟨by decide,
   fun env status r h => run_phase_never_ok minimization_spec env status r h,
   fun env status r h => run_phase_never_ok nvt_spec env status r h,
   fun env status r h => run_phase_never_ok npt_spec env status r h,
   fun env status r h => run_phase_never_ok production_spec env status r h⟩

/-- Witness for C3: the benign minimization attempt itself. -/
theorem C3_success_unreachable_witness : energy_fail_run.ok = false :=
  C3_success_unreachable.2.1 good_env {} energy_fail_run (by decide)

/-! ## Claim C4 -/

/-- Along every reachable status, `completed_steps` is empty: no run method
ever commits, because energy validation always fails. -/
theorem reachable_completed_empty (st : SimulationStatus) (h : Reachable st) :
    st.completed_steps = [] := by
  induction h with
  | init => rfl
  | step st spec env r hst hmem hrun ih =>
    rcases run_phase_cases spec env st r hrun with ⟨hok, _, _⟩ | ⟨_, hcs, _, _⟩
    · rw [run_phase_never_ok spec env st r hrun] at hok; cases hok
    · rw [hcs, ih]

/-- Claim C4: the XOR invariant over the statuses this program actually
produces.  Since energy validation always fails, no attempt ever appends to
`completed_steps`: along every status reachable through the four run
methods (the only mutators of the status), `completed_steps` stays empty,
so no phase is ever in both lists or twice in `completed_steps`; a
returned attempt always puts its phase in exactly one of the two lists
(the `errors` side); and once recorded, an error survives every later
attempt, so an attempted phase never ends up in neither list. -/
theorem C4_xor_invariant :
    (∀ st, Reachable st → st.completed_steps = [] ∧
      ∀ s : SimulationStep,
        ¬(s ∈ st.completed_steps ∧ alookup st.errors s ≠ none) ∧
        st.completed_steps.count s ≤ 1) ∧
    (∀ st spec env r, Reachable st →
      spec ∈ [minimization_spec, nvt_spec, npt_spec, production_spec] →
      run_phase spec env st = some r →
      ((spec.step ∈ r.status.completed_steps ∧
          alookup r.status.errors spec.step = none) ∨
       (spec.step ∉ r.status.completed_steps ∧
          alookup r.status.errors spec.step ≠ none))) ∧
    (∀ st spec env r s, run_phase spec env st = some r →
      alookup st.errors s ≠ none → alookup r.status.errors s ≠ none) := by
  refine ⟨?_, ?_, ?_⟩
  · intro st h
    have hce := reachable_completed_empty st h
    rw [hce]
    exact ⟨rfl, fun s => ⟨by simp, by simp⟩⟩
  · intro st spec env r hst hmem hrun
    have hce := reachable_completed_empty st hst
    rcases run_phase_cases spec env st r hrun with ⟨hok, _, _⟩ | ⟨_, hcs, msg, herr⟩
    · rw [run_phase_never_ok spec env st r hrun] at hok; cases hok
    · right
      constructor
      · rw [hcs, hce]; simp
      · rw [herr, alookup_aset_self]; simp
  · intro st spec env r s hrun herr0
    rcases run_phase_cases spec env st r hrun with ⟨_, _, herr⟩ | ⟨_, _, msg, herr⟩
    · rw [herr]; exact herr0
    · rw [herr]
      by_cases hss : spec.step = s
      · subst hss; rw [alookup_aset_self]; simp
      · rw [alookup_aset_ne _ _ _ _ hss]; exact herr0

/-- Witness for C4: the benign minimization attempt from the initial status
lands the phase in `errors` and not in `completed_steps`. -/
theorem C4_xor_invariant_witness :
    (SimulationStep.minimization ∈ energy_fail_run.status.completed_steps ∧
      alookup energy_fail_run.status.errors .minimization = none) ∨
    (SimulationStep.minimization ∉ energy_fail_run.status.completed_steps ∧
      alookup energy_fail_run.status.errors .minimization ≠ none) :=
  C4_xor_invariant.2.1 {} minimization_spec good_env energy_fail_run Reachable.init
    (List.mem_cons_self _ _) (by decide)

/-! ## Claim C6 -/

/-- If grompp succeeded and the monitor signalled fatal, the attempt fails
with the simulation-failure message recorded (for any phase whose
predecessor requirement is met). -/
theorem run_phase_fatal (spec : PhaseSpec) (env : PhaseEnv) (status : SimulationStatus)
    (hpred : ∀ pred, spec.predecessor = some pred → pred ∈ status.completed_steps)
    (hg : env.grompp_return_code = 0) (hm : monitorOutcome env.polls = .fatal) :
    run_phase spec env status =
      some ⟨record_error { status with current_step := some spec.step } spec.step
              (spec.step.value ++ " 模拟失败"),
            [grompp_effect spec, mdrun_effect spec], false⟩ := by
  have hbody : run_phase_body spec env { status with current_step := some spec.step } =
      some ⟨record_error { status with current_step := some spec.step } spec.step
              (spec.step.value ++ " 模拟失败"),
            [grompp_effect spec, mdrun_effect spec], false⟩ := by
    unfold run_phase_body
    rw [if_neg (by simp [hg]), hm]
  unfold run_phase
  cases hsp : spec.predecessor with
  | none =>
    dsimp only
    exact hbody
  | some pred =>
    dsimp only
    rw [if_pos (hpred pred hsp)]
    exact hbody

/-- Counterexample to C6: the most recent log line contains the `Fatal
error` substring, yet because `_monitor_progress` checks `Finished mdrun`
first, the monitor signals completion, not failure; the attempt then fails
only later, at energy validation — the recorded error is the
energy-validation message, not the fatal-log message raised when the
monitor signals failure. -/
theorem C6_counterexample :
    strContains "step 42: Fatal error handled, then Finished mdrun" "Fatal error" = true ∧
    monitorPoll ["step 42: Fatal error handled, then Finished mdrun"] = .done ∧
    monitorOutcome [some ["step 42: Fatal error handled, then Finished mdrun"]] =
      .finished ∧
    run_minimization both_markers_env {} = some energy_fail_run ∧
    alookup energy_fail_run.status.errors .minimization =
      some "minimization 能量验证失败" ∧
    ("minimization 能量验证失败" : String) ≠ "minimization 模拟失败" := by
  exact ⟨by decide, by decide, by decide, by decide, by decide, by decide⟩

/-- Claim C6 as amended: if the most recent log line contains the fatal
marker `Fatal error` and does NOT contain the completion marker `Finished
mdrun`, the monitor signals failure; and whenever the monitor signals
fatal during a phase whose earlier steps succeeded, the attempt ends
failed, `errors[P]` becomes non-empty, and `completed_steps` does not gain
the phase. -/
theorem C6_fatal_marker_fails_phase (env : PhaseEnv) (status : SimulationStatus) :
    (∀ lines l, lines.getLast? = some l → strContains l "Fatal error" = true →
      strContains l "Finished mdrun" = false → monitorPoll lines = .failed l) ∧
    (env.grompp_return_code = 0 → monitorOutcome env.polls = .fatal →
      (∃ r, run_minimization env status = some r ∧ r.ok = false ∧
        alookup r.status.errors .minimization ≠ none ∧
        r.status.completed_steps = status.completed_steps) ∧
      (SimulationStep.minimization ∈ status.completed_steps →
        ∃ r, run_nvt_equilibration env status = some r ∧ r.ok = false ∧
          alookup r.status.errors .nvt_equilibration ≠ none ∧
          r.status.completed_steps = status.completed_steps) ∧
      (SimulationStep.nvt_equilibration ∈ status.completed_steps →
        ∃ r, run_npt_equilibration env status = some r ∧ r.ok = false ∧
          alookup r.status.errors .npt_equilibration ≠ none ∧
          r.status.completed_steps = status.completed_steps) ∧
      (SimulationStep.npt_equilibration ∈ status.completed_steps →
        ∃ r, run_production env status = some r ∧ r.ok = false ∧
          alookup r.status.errors .production ≠ none ∧
          r.status.completed_steps = status.completed_steps)) := by
  constructor
  · intro lines l hl hfat hfin
    unfold monitorPoll
    rw [hl]
    dsimp only
    rw [if_neg (by simp [hfin]), if_pos hfat]
  · intro hg hm
    refine ⟨?_, ?_, ?_, ?_⟩
    · refine ⟨_, run_phase_fatal minimization_spec env status (by intro p hp; cases hp)
        hg hm, rfl, ?_, rfl⟩
      simp [minimization_spec, record_error, alookup_aset_self]
    · intro hc
      refine ⟨_, run_phase_fatal nvt_spec env status
        (by intro p hp; injection hp with hp; exact hp ▸ hc) hg hm, rfl, ?_, rfl⟩
      simp [nvt_spec, record_error, alookup_aset_self]
    · intro hc
      refine ⟨_, run_phase_fatal npt_spec env status
        (by intro p hp; injection hp with hp; exact hp ▸ hc) hg hm, rfl, ?_, rfl⟩
      simp [npt_spec, record_error, alookup_aset_self]
    · intro hc
      refine ⟨_, run_phase_fatal production_spec env status
        (by intro p hp; injection hp with hp; exact hp ▸ hc) hg hm, rfl, ?_, rfl⟩
      simp [production_spec, record_error, alookup_aset_self]

/-- Witness for C6: a genuine fatal line fails the minimization attempt. -/
theorem C6_fatal_marker_fails_phase_witness :
    ∃ r, run_minimization fatal_env {} = some r ∧ r.ok = false ∧
      alookup r.status.errors .minimization ≠ none ∧
      r.status.completed_steps = ({} : SimulationStatus).completed_steps :=
  ((C6_fatal_marker_fails_phase fatal_env {}).2 rfl (by decide)).1

/-! ## Claim C7 -/

/-- `_check_output_files` passes exactly when every required file exists and
is non-empty. -/
theorem check_output_files_iff (sizes : List (String × Nat)) (files : List String) :
    check_output_files sizes files = true ↔
      ∀ f ∈ files, ∃ n, alookup sizes f = some n ∧ n ≠ 0 := by
  induction files with
  | nil => simp [check_output_files]
  | cons f rest ih =>
    unfold check_output_files
    cases hf : alookup sizes f with
    | none =>
      simp only [List.forall_mem_cons, hf]
      constructor
      · intro h; cases h
      · rintro ⟨⟨n, hn, _⟩, _⟩; cases hn
    | some n =>
      dsimp only
      by_cases hn : n = 0
      · subst hn
        simp only [if_pos rfl, List.forall_mem_cons, hf]
        constructor
        · intro h; cases h
        · rintro ⟨⟨m, hm, hm0⟩, _⟩
          injection hm with hm
          exact absurd hm.symm hm0
      · rw [if_neg hn, ih]
        simp only [List.forall_mem_cons, hf]
        constructor
        · intro h
          exact ⟨⟨n, rfl, hn⟩, h⟩
        · rintro ⟨_, h⟩
          exact h

/-- If grompp succeeded and the monitor signalled completion but the output
check fails, the attempt fails with the validation message recorded. -/
theorem run_phase_validation_fail (spec : PhaseSpec) (env : PhaseEnv)
    (status : SimulationStatus)
    (hpred : ∀ pred, spec.predecessor = some pred → pred ∈ status.completed_steps)
    (hg : env.grompp_return_code = 0)
    (hm : monitorOutcome env.polls = .finished)
    (hv : check_output_files env.file_size spec.required_files = false) :
    run_phase spec env status =
      some ⟨record_error { status with current_step := some spec.step } spec.step
              (spec.step.value ++ " 输出文件验证失败"),
            [grompp_effect spec, mdrun_effect spec], false⟩ := by
  have hbody : run_phase_body spec env { status with current_step := some spec.step } =
      some ⟨record_error { status with current_step := some spec.step } spec.step
              (spec.step.value ++ " 输出文件验证失败"),
            [grompp_effect spec, mdrun_effect spec], false⟩ := by
    unfold run_phase_body
    rw [if_neg (by simp [hg]), hm]
    dsimp only
    rw [if_pos hv]
  unfold run_phase
  cases hsp : spec.predecessor with
  | none =>
    dsimp only
    exact hbody
  | some pred =>
    dsimp only
    rw [if_pos (hpred pred hsp)]
    exact hbody

/-- Claim C7: the output check passes exactly when every required file
exists and is non-empty; and for every phase (predecessor requirement met,
run exited zero, monitor saw completion), a failing output check makes the
attempt raise a validation error, leaves `completed_steps` without the
phase, and creates no checkpoint. -/
theorem C7_output_validation (env : PhaseEnv) (status : SimulationStatus) :
    (∀ sizes files, check_output_files sizes files = true ↔
      ∀ f ∈ files, ∃ n, alookup sizes f = some n ∧ n ≠ 0) ∧
    (env.grompp_return_code = 0 → monitorOutcome env.polls = .finished →
      (check_output_files env.file_size minimization_spec.required_files = false →
        ∃ r, run_minimization env status = some r ∧ r.ok = false ∧
          alookup r.status.errors .minimization ≠ none ∧
          r.status.completed_steps = status.completed_steps ∧
          ∀ s, Effect.backup s ∉ r.effects) ∧
      (SimulationStep.minimization ∈ status.completed_steps →
        check_output_files env.file_size nvt_spec.required_files = false →
        ∃ r, run_nvt_equilibration env status = some r ∧ r.ok = false ∧
          alookup r.status.errors .nvt_equilibration ≠ none ∧
          r.status.completed_steps = status.completed_steps ∧
          ∀ s, Effect.backup s ∉ r.effects) ∧
      (SimulationStep.nvt_equilibration ∈ status.completed_steps →
        check_output_files env.file_size npt_spec.required_files = false →
        ∃ r, run_npt_equilibration env status = some r ∧ r.ok = false ∧
          alookup r.status.errors .npt_equilibration ≠ none ∧
          r.status.completed_steps = status.completed_steps ∧
          ∀ s, Effect.backup s ∉ r.effects) ∧
      (SimulationStep.npt_equilibration ∈ status.completed_steps →
        check_output_files env.file_size production_spec.required_files = false →
        ∃ r, run_production env status = some r ∧ r.ok = false ∧
          alookup r.status.errors .production ≠ none ∧
          r.status.completed_steps = status.completed_steps ∧
          ∀ s, Effect.backup s ∉ r.effects)) := by
  refine ⟨check_output_files_iff, ?_⟩
  intro hg hm
  refine ⟨?_, ?_, ?_, ?_⟩
  · intro hv
    have h := run_phase_validation_fail minimization_spec env status
      (by intro p hp; cases hp) hg hm hv
    refine ⟨_, h, rfl, ?_, rfl, ?_⟩
    · simp [minimization_spec, record_error, alookup_aset_self]
    · intro s
      exact (effects_only_gateway (run_phase_effects _ env status _ h)).1 s
  · intro hc hv
    have h := run_phase_validation_fail nvt_spec env status
      (by intro p hp; injection hp with hp; exact hp ▸ hc) hg hm hv
    refine ⟨_, h, rfl, ?_, rfl, ?_⟩
    · simp [nvt_spec, record_error, alookup_aset_self]
    · intro s
      exact (effects_only_gateway (run_phase_effects _ env status _ h)).1 s
  · intro hc hv
    have h := run_phase_validation_fail npt_spec env status
      (by intro p hp; injection hp with hp; exact hp ▸ hc) hg hm hv
    refine ⟨_, h, rfl, ?_, rfl, ?_⟩
    · simp [npt_spec, record_error, alookup_aset_self]
    · intro s
      exact (effects_only_gateway (run_phase_effects _ env status _ h)).1 s
  · intro hc hv
    have h := run_phase_validation_fail production_spec env status
      (by intro p hp; injection hp with hp; exact hp ▸ hc) hg hm hv
    refine ⟨_, h, rfl, ?_, rfl, ?_⟩
    · simp [production_spec, record_error, alookup_aset_self]
    · intro s
      exact (effects_only_gateway (run_phase_effects _ env status _ h)).1 s

/-- Witness for C7: an empty `em.edr` fails the minimization attempt. -/
theorem C7_output_validation_witness :
    ∃ r, run_minimization empty_output_env {} = some r ∧ r.ok = false ∧
      alookup r.status.errors .minimization ≠ none ∧
      r.status.completed_steps = ({} : SimulationStatus).completed_steps ∧
      ∀ s, Effect.backup s ∉ r.effects :=
  ((C7_output_validation empty_output_env {}).2 rfl (by decide)).1 (by decide)

/-! ## Claim C2 -/

/-- The restore loop reports failure whenever some required file is missing
from the checkpoint directory. -/
theorem restoreLoop_missing (d : List (String × FileContent)) (files : List String)
    (wd : List (String × FileContent)) (f : String)
    (hf : f ∈ files) (hmiss : alookup d f = none) :
    (restoreLoop d files wd).1 = false := by
  induction files generalizing wd with
  | nil => cases hf
  | cons g rest ih =>
    unfold restoreLoop
    cases hg : alookup d g with
    | none => rfl
    | some c =>
      dsimp only
      rcases List.mem_cons.1 hf with rfl | hf'
      · rw [hg] at hmiss; cases hmiss
      · exact ih _ hf' 

/-- Counterexample to C2: restoring minimization from a checkpoint directory
that holds `em.gro` but lacks `em.edr` reports failure, yet `em.gro` has
already been copied — the working directory is changed by the failing
call. -/
theorem C2_counterexample :
    restore_checkpoint .minimization { workdir := [], ckptdir := some [("em.gro", [1])] } =
      (false, { workdir := [("em.gro", [1])], ckptdir := some [("em.gro", [1])] }) ∧
    ([("em.gro", [1])] : List (String × FileContent)) ≠ [] := by
  exact ⟨by decide, by decide⟩

/-- Claim C2 as amended: `restore_checkpoint` reports failure (returns
`False`) whenever the checkpoint directory or any required file is missing;
when the directory is missing nothing is copied and the working directory
is unchanged, but when a required file is missing, required files earlier
in the list that are present have already been copied, so the working
directory may be changed by the failing call. -/
theorem C2_restore_failure_reporting (step : SimulationStep) (fs : StepFS) :
    (fs.ckptdir = none → restore_checkpoint step fs = (false, fs)) ∧
    (∀ d f, fs.ckptdir = some d → f ∈ files_to_restore step → alookup d f = none →
      (restore_checkpoint step fs).1 = false) := by
  constructor
  · intro h
    unfold restore_checkpoint
    rw [h]
  · intro d f hd hf hmiss
    unfold restore_checkpoint
    rw [hd]
    exact restoreLoop_missing d (files_to_restore step) fs.workdir f hf hmiss

/-- Witness for C2: a missing checkpoint directory reports failure and
leaves the filesystem untouched, and a directory missing `em.edr` reports
failure. -/
theorem C2_restore_failure_reporting_witness :
    restore_checkpoint .minimization { workdir := [("topol.top", [7])], ckptdir := none } =
      (false, { workdir := [("topol.top", [7])], ckptdir := none }) ∧
    (restore_checkpoint .minimization
      { workdir := [], ckptdir := some [("em.gro", [1])] }).1 = false :=
  ⟨(C2_restore_failure_reporting .minimization
      { workdir := [("topol.top", [7])], ckptdir := none }).1 rfl,
   (C2_restore_failure_reporting .minimization
      { workdir := [], ckptdir := some [("em.gro", [1])] }).2
      [("em.gro", [1])] "em.edr" rfl (by decide) (by decide)⟩

/-! ## Claim C8 -/

/-- The backup loop leaves checkpoint entries for files outside the list
untouched. -/
theorem backupFold_alookup_of_not_mem (wd d : List (String × FileContent))
    (files : List String) (f : String) (hf : f ∉ files) :
    alookup (backupFold wd d files) f = alookup d f := by
  induction files generalizing d with
  | nil => rfl
  | cons g rest ih =>
    have hfg : f ≠ g := fun h => hf (h ▸ List.mem_cons_self g rest)
    have hf' : f ∉ rest := fun h => hf (List.mem_cons_of_mem g h)
    unfold backupFold
    cases hg : alookup wd g with
    | none => exact ih _ hf'
    | some c =>
      dsimp only
      rw [ih _ hf', alookup_aset_ne _ _ _ _ (Ne.symm hfg)]

/-- After the backup loop, every listed file that exists in the working
directory has its working-directory content in the checkpoint directory. -/
theorem backupFold_alookup_of_mem (wd d : List (String × FileContent))
    (files : List String) (f : String) (hf : f ∈ files)
    (hs : (alookup wd f).isSome) :
    alookup (backupFold wd d files) f = alookup wd f := by
  induction files generalizing d with
  | nil => cases hf
  | cons g rest ih =>
    by_cases hfr : f ∈ rest
    · unfold backupFold
      cases hg : alookup wd g with
      | none => exact ih _ hfr
      | some c => exact ih _ hfr
    · have hfg : f = g := by
        rcases List.mem_cons.1 hf with rfl | h
        · rfl
        · exact absurd h hfr
      subst hfg
      obtain ⟨c, hc⟩ := Option.isSome_iff_exists.1 hs
      unfold backupFold
      rw [hc]
      dsimp only
      rw [backupFold_alookup_of_not_mem wd _ rest f hfr, alookup_aset_self]

/-- The restore loop succeeds and leaves the working directory unchanged
when the checkpoint directory agrees with the working directory on every
listed file. -/
theorem restoreLoop_of_agree (d : List (String × FileContent)) (files : List String)
    (wd : List (String × FileContent))
    (h : ∀ f ∈ files, alookup d f = alookup wd f ∧ (alookup wd f).isSome) :
    restoreLoop d files wd = (true, wd) := by
  induction files with
  | nil => rfl
  | cons g rest ih =>
    obtain ⟨hdg, hsg⟩ := h g (List.mem_cons_self g rest)
    obtain ⟨c, hc⟩ := Option.isSome_iff_exists.1 hsg
    unfold restoreLoop
    rw [hdg, hc]
    dsimp only
    rw [aset_eq_self_of_alookup wd g c hc]
    exact ih fun f hf => h f (List.mem_cons_of_mem g hf)

/-- The two file-set dicts of the checkpoint store coincide. -/
theorem files_to_restore_eq_backup (step : SimulationStep) :
    files_to_restore step = files_to_backup step := by
  cases step <;> rfl

/-- Claim C8: for every phase whose required output files are all present in
the working directory, `backup_checkpoint` followed by `restore_checkpoint`
succeeds and reproduces the working directory byte-identically (and the
backup itself never touches the working directory). -/
theorem C8_backup_restore_roundtrip (step : SimulationStep) (fs : StepFS)
    (h : ∀ f ∈ files_to_backup step, (alookup fs.workdir f).isSome) :
    restore_checkpoint step (backup_checkpoint step fs) =
      (true, backup_checkpoint step fs) ∧
    (backup_checkpoint step fs).workdir = fs.workdir := by
  refine ⟨?_, rfl⟩
  have hagree : ∀ f ∈ files_to_restore step,
      alookup (backupFold fs.workdir (fs.ckptdir.getD []) (files_to_backup step)) f =
        alookup fs.workdir f ∧ (alookup fs.workdir f).isSome := by
    intro f hf
    rw [files_to_restore_eq_backup] at hf
    exact ⟨backupFold_alookup_of_mem _ _ _ f hf (h f hf), h f hf⟩
  show restore_checkpoint step
      { workdir := fs.workdir,
        ckptdir := some (backupFold fs.workdir (fs.ckptdir.getD []) (files_to_backup step)) } =
    _
  unfold restore_checkpoint
  dsimp only
  rw [restoreLoop_of_agree _ _ _ hagree]
  rfl

/-- Witness for C8: the round trip on a concrete minimization working
directory. -/
theorem C8_backup_restore_roundtrip_witness :
    restore_checkpoint .minimization (backup_checkpoint .minimization full_workdir_fs) =
      (true, backup_checkpoint .minimization full_workdir_fs) ∧
    (backup_checkpoint .minimization full_workdir_fs).workdir = full_workdir_fs.workdir :=
  C8_backup_restore_roundtrip .minimization full_workdir_fs (by decide)

/-! ## Claim C10 -/

/-- Claim C10: for the steps with no entry in the checkpoint file-set
mapping (`system_preparation` and `analysis`) the file list is empty;
`restore_checkpoint` returns `True` and copies nothing provided the
checkpoint directory exists; and `backup_checkpoint` on a filesystem
without the directory creates it empty and reports success. -/
theorem C10_unmapped_steps (fs : StepFS) (d : List (String × FileContent)) :
    files_to_restore .system_preparation = [] ∧
    files_to_restore .analysis = [] ∧
    (fs.ckptdir = some d →
      restore_checkpoint .system_preparation fs = (true, fs) ∧
      restore_checkpoint .analysis fs = (true, fs)) ∧
    backup_checkpoint .system_preparation { workdir := fs.workdir, ckptdir := none } =
      { workdir := fs.workdir, ckptdir := some [] } ∧
    backup_checkpoint .analysis { workdir := fs.workdir, ckptdir := none } =
      { workdir := fs.workdir, ckptdir := some [] } := by
  refine ⟨rfl, rfl, ?_, rfl, rfl⟩
  intro hd
  constructor <;>
    · unfold restore_checkpoint
      rw [hd]
      dsimp only [files_to_restore, restoreLoop]
      rw [← hd]

/-- Witness for C10: a concrete filesystem with an existing (stale)
checkpoint directory. -/
theorem C10_unmapped_steps_witness :
    restore_checkpoint .system_preparation
        { workdir := [("conf.gro", [9])], ckptdir := some [("old", [0])] } =
      (true, { workdir := [("conf.gro", [9])], ckptdir := some [("old", [0])] }) ∧
    restore_checkpoint .analysis
        { workdir := [("conf.gro", [9])], ckptdir := some [("old", [0])] } =
      (true, { workdir := [("conf.gro", [9])], ckptdir := some [("old", [0])] }) :=
  (C10_unmapped_steps { workdir := [("conf.gro", [9])], ckptdir := some [("old", [0])] }
    [("old", [0])]).2.2.1 rfl

end GmxVmd
